import Mathlib

/-!
Verification development for the PV upgrade workflow in
frontend/csi/helpers/kubernetes/upgrade_pv.go.

The Go code converts a legacy NFS or iSCSI PersistentVolume to a CSI
PersistentVolume in a live Kubernetes cluster.  This file gives a shallow
embedding of that code: Kubernetes objects become Lean structures carrying
exactly the fields the upgrade code reads or writes, fallible operations
return structured error values mirroring the Go error returns, and the
bounded exponential-backoff retry loops are modelled by a fuel parameter
(the number of attempts the deadline admits) together with either an
explicit trace of observed cache states or a deterministic cluster-step
function.  Cluster mutations are recorded as an explicit action list so
that statements of the form "rejects before any mutation" can be made
precise.
-/

namespace UpgradePV

/-- A network-filesystem (NFS) legacy volume source.  Only the fields the
upgrade code reads are modelled; the read-only flag is the one consulted
by createCSIPVFromPV. -/
structure NFSVolumeSource where
  server : String
  path : String
  readOnly : Bool
  deriving DecidableEq, Repr

/-- A block-protocol (iSCSI) legacy volume source with the two fields the
upgrade code reads: the read-only flag and the filesystem type. -/
structure ISCSIVolumeSource where
  readOnly : Bool
  fsType : String
  deriving DecidableEq, Repr

/-- The driver-mediated (CSI) volume source produced by the conversion. -/
structure CSIPersistentVolumeSource where
  driver : String
  volumeHandle : String
  readOnly : Bool
  fsType : String
  volumeAttributes : List (String × String)
  deriving DecidableEq, Repr

/-- Binding phase of a PersistentVolume. -/
inductive PersistentVolumePhase where
  | pending
  | available
  | bound
  | released
  | failed
  deriving DecidableEq, Repr

/-- A PersistentVolume as seen by the upgrade code: object metadata
(name, resource version, uid, annotations, finalizers, deletion
timestamp), the claim reference, the binding phase, and the three
possible volume sources. -/
structure PersistentVolume where
  name : String
  resourceVersion : String
  uid : String
  annotations : List (String × String)
  finalizers : List String
  deletionTimestamp : Option Nat
  claimRefName : String
  claimRefNamespace : String
  phase : PersistentVolumePhase
  nfs : Option NFSVolumeSource
  iscsi : Option ISCSIVolumeSource
  csi : Option CSIPersistentVolumeSource
  deriving DecidableEq, Repr

/-- Phase of a PersistentVolumeClaim. -/
inductive PersistentVolumeClaimPhase where
  | pending
  | bound
  | lost
  deriving DecidableEq, Repr

/-- A PersistentVolumeClaim with the fields the upgrade code touches. -/
structure PersistentVolumeClaim where
  name : String
  ns : String
  annotations : List (String × String)
  phase : PersistentVolumeClaimPhase
  volumeName : String
  deriving DecidableEq, Repr

/-- Phase of a Pod. -/
inductive PodPhase where
  | pending
  | running
  | succeeded
  | failed
  | unknown
  deriving DecidableEq, Repr

/-- One volume entry in a pod spec; the claim reference carries the claim
name when the entry is a PersistentVolumeClaim volume, none otherwise. -/
structure PodVolume where
  name : String
  persistentVolumeClaim : Option String
  deriving DecidableEq, Repr

/-- A Pod with the fields getPodsForPVC and the pod waiter read: name,
owner references (empty means a standalone, naked pod), phase and the
volume entries of its spec. -/
structure Pod where
  name : String
  ownerReferences : List String
  phase : PodPhase
  volumes : List PodVolume
  deriving DecidableEq, Repr

/-- Modelled from the spec: lifecycle state of the registry volume
record; the record must be online for the upgrade to proceed.  The
storage package defining this type is outside the provided source. -/
inductive VolumeState where
  | online
  | deleting
  | upgrading
  deriving DecidableEq, Repr

/-- Modelled from the spec: the configuration part of the registry
volume record, with the fields createCSIPVFromPV reads. -/
structure VolumeConfig where
  name : String
  internalName : String
  protocol : String
  deriving DecidableEq, Repr

/-- Modelled from the spec: the registry-owned volume record (Trident
VolumeExternal), read-only input of the workflow. -/
structure VolumeExternal where
  config : VolumeConfig
  backendUUID : String
  state : VolumeState
  deriving DecidableEq, Repr

/-- The upgrade request: volume identifier and migration type. -/
structure UpgradeVolumeRequest where
  volume : String
  migrationType : String
  deriving DecidableEq, Repr

/-- Modelled from the spec: the provenance annotation key carried by
dynamically provisioned volumes (constant defined outside the provided
source). -/
def AnnDynamicallyProvisioned : String := "pv.kubernetes.io/provisioned-by"

/-- Modelled from the spec: the bind-completed annotation key on claims
(constant defined outside the provided source). -/
def AnnBindCompleted : String := "pv.kubernetes.io/bind-completed"

/-- Modelled from the spec: the single recognized protection finalizer
(constant defined outside the provided source). -/
def FinalizerPVProtection : String := "kubernetes.io/pv-protection"

/-- Modelled from the spec: identity string of the legacy provisioner
(constant defined outside the provided source). -/
def LegacyProvisioner : String := "netapp.io/trident"

/-- Modelled from the spec: identity string of the CSI provisioner
(constant defined outside the provided source). -/
def Provisioner : String := "csi.trident.netapp.io"

/-- Modelled from the spec: the per-wait deadline for PV deletion and
claim phase transitions, in seconds (constant defined outside the
provided source; only its appearance in timeout messages matters here). -/
def PVDeleteWaitSeconds : Nat := 180

/-- Modelled from the spec: the per-wait deadline for pod deletion, in
seconds (constant defined outside the provided source). -/
def PodDeleteWaitSeconds : Nat := 300

/-- First-match association-list lookup, the model of map indexing and
of cached point lookups. -/
def lookupKey {α β : Type} [DecidableEq α] : List (α × β) → α → Option β
  | [], _ => none
  | (k, v) :: rest, key => if k = key then some v else lookupKey rest key

/-- Cluster mutations the workflow can perform, recorded in order. -/
inductive Action where
  | deletePV (name : String)
  | patchPV (name : String)
  | deletePod (ns name : String)
  | patchPVC (ns name : String)
  | createPV (pv : PersistentVolume)
  deriving DecidableEq, Repr

/-- Inner loop of getPodsForPVC over the volume entries of one pod:
for each entry referencing the claim by name, append the pod name to
the naked list when the pod has no owner references, otherwise to the
owned list. -/
def podVolumesLoop (pod : Pod) (pvcName : String) :
    List String → List String → List PodVolume → List String × List String
  | owned, naked, [] => (owned, naked)
  | owned, naked, v :: vs =>
    if v.persistentVolumeClaim = some pvcName then
      if pod.ownerReferences = [] then
        podVolumesLoop pod pvcName owned (naked ++ [pod.name]) vs
      else
        podVolumesLoop pod pvcName (owned ++ [pod.name]) naked vs
    else
      podVolumesLoop pod pvcName owned naked vs

/-- Outer loop of getPodsForPVC over the pods of the claim namespace. -/
def podsLoop (pvcName : String) :
    List String → List String → List Pod → List String × List String
  | owned, naked, [] => (owned, naked)
  | owned, naked, pod :: rest =>
    let p := podVolumesLoop pod pvcName owned naked pod.volumes
    podsLoop pvcName p.1 p.2 rest

/-- getPodsForPVC: scan the pods of the claim namespace and return the
pair (owned pods, naked pods), where a pod name is appended once per
volume entry of its spec that references the claim by name. -/
def getPodsForPVC (pods : List Pod) (pvcName : String) : List String × List String :=
  podsLoop pvcName [] [] pods

/-- Number of volume entries of a pod spec that reference the given
claim by name. -/
def matchCount (pod : Pod) (pvcName : String) : Nat :=
  (pod.volumes.filter (fun v => decide (v.persistentVolumeClaim = some pvcName))).length

theorem podVolumesLoop_eq (pod : Pod) (pvcName : String) (owned naked : List String) :
    ∀ vs : List PodVolume,
      podVolumesLoop pod pvcName owned naked vs =
        if pod.ownerReferences = [] then
          (owned, naked ++ List.replicate
            ((vs.filter (fun v => decide (v.persistentVolumeClaim = some pvcName))).length) pod.name)
        else
          (owned ++ List.replicate
            ((vs.filter (fun v => decide (v.persistentVolumeClaim = some pvcName))).length) pod.name,
           naked) := by
  intro vs
  induction vs generalizing owned naked with
  | nil => simp [podVolumesLoop]
  | cons v vs ih =>
    by_cases hv : v.persistentVolumeClaim = some pvcName
    · by_cases ho : pod.ownerReferences = []
      · simp [podVolumesLoop, hv, ho, ih, List.replicate_succ, List.append_assoc]
      · simp [podVolumesLoop, hv, ho, ih, List.replicate_succ, List.append_assoc]
    · simp [podVolumesLoop, hv, ih]

/-- Contribution of a single pod to the owned list. -/
def ownedContrib (pvcName : String) (pod : Pod) : List String :=
  if pod.ownerReferences = [] then [] else List.replicate (matchCount pod pvcName) pod.name

/-- Contribution of a single pod to the naked list. -/
def nakedContrib (pvcName : String) (pod : Pod) : List String :=
  if pod.ownerReferences = [] then List.replicate (matchCount pod pvcName) pod.name else []

theorem podsLoop_eq (pvcName : String) :
    ∀ (pods : List Pod) (owned naked : List String),
      podsLoop pvcName owned naked pods =
        (owned ++ pods.flatMap (ownedContrib pvcName),
         naked ++ pods.flatMap (nakedContrib pvcName)) := by
  intro pods
  induction pods with
  | nil => intro owned naked; simp [podsLoop]
  | cons pod rest ih =>
    intro owned naked
    rw [podsLoop, podVolumesLoop_eq]
    by_cases ho : pod.ownerReferences = []
    · simp only [ho, if_pos rfl]
      rw [ih]
      simp [ownedContrib, nakedContrib, matchCount, ho, List.append_assoc]
    · simp only [ho, if_neg ho]
      rw [ih]
      simp [ownedContrib, nakedContrib, matchCount, ho, List.append_assoc]

theorem getPodsForPVC_eq (pods : List Pod) (pvcName : String) :
    getPodsForPVC pods pvcName =
      (pods.flatMap (ownedContrib pvcName), pods.flatMap (nakedContrib pvcName)) := by
  rw [getPodsForPVC, podsLoop_eq]
  simp

/-- What one attempt of a PV waiter can observe in the watch-fed cache:
the key is absent, the key maps to a PersistentVolume, the key maps to
an object of another type (the defensive type-assertion failure), or the
cache lookup itself returned an error. -/
inductive PVCacheView where
  | absent
  | pv (p : PersistentVolume)
  | nonPVObject
  | lookupError (msg : String)
  deriving DecidableEq, Repr

/-- Structured error values for the waiter conditions and their timeout
messages, mirroring the strings the Go code builds. -/
inductive PollError where
  | cacheError (msg : String)
  | nonPVObject (name : String)
  | timestampNotSet (name : String)
  | stillExists (name : String)
  | pvNotDeleted (name : String) (seconds : Nat)
  | pvNotFullyDeleted (name : String) (seconds : Nat)
  | pvcNotFoundInCache (ns name : String)
  | pvcNotYetPhase (ns name : String) (phase : PersistentVolumeClaimPhase)
  | pvcPhaseTimeout (ns name : String) (phase : PersistentVolumeClaimPhase) (seconds : Nat)
  | podAPIError (msg : String)
  | nilPodReturned (ns name : String)
  | podStillRunning (ns name : String)
  | podNotDeleted (ns name : String) (seconds : Nat)
  deriving DecidableEq, Repr

/-- One attempt of the deletion-marker condition inside waitForDeletedPV.
The first component models the captured pv variable (reset to nil at the
start of each attempt, assigned only when the type assertion succeeds);
the second is the error returned by the attempt, none meaning success. -/
def checkForDeletedPV (name : String) : PVCacheView → Option PersistentVolume × Option PollError
  | .lookupError m => (none, some (.cacheError m))
  | .absent => (none, none)
  | .nonPVObject => (none, some (.nonPVObject name))
  | .pv p =>
    if p.deletionTimestamp = none then (some p, some (.timestampNotSet name))
    else (some p, none)

/-- One attempt of the disappearance condition inside
waitForPVDisappearance; none means success. -/
def checkForPVGone (name : String) : PVCacheView → Option PollError
  | .lookupError m => some (.cacheError m)
  | .absent => none
  | .nonPVObject => some (.nonPVObject name)
  | .pv _ => some (.stillExists name)

/-- waitForDeletedPV over an explicit trace of cache observations, one
per retry attempt the deadline admits.  Every attempt error is retried
by the backoff loop; when the trace is exhausted the deadline has
elapsed and the function returns the pair (nil, timeout error), exactly
as the Go code does on the err-not-nil branch of the retry call. -/
def waitForDeletedPV (name : String) (maxElapsedSeconds : Nat) :
    List PVCacheView → Option PersistentVolume × Option PollError
  | [] => (none, some (.pvNotDeleted name maxElapsedSeconds))
  | v :: rest =>
    match checkForDeletedPV name v with
    | (p, none) => (p, none)
    | (_, some _) => waitForDeletedPV name maxElapsedSeconds rest

/-- waitForPVDisappearance over an explicit trace of cache observations;
every attempt error is retried, and an exhausted trace yields the
timeout error built by the Go caller of the retry loop. -/
def waitForPVDisappearance (name : String) (maxElapsedSeconds : Nat) :
    List PVCacheView → Except PollError Unit
  | [] => .error (.pvNotFullyDeleted name maxElapsedSeconds)
  | v :: rest =>
    match checkForPVGone name v with
    | none => .ok ()
    | some _ => waitForPVDisappearance name maxElapsedSeconds rest

/-- A sample legacy PV that is present in the cache without a deletion
marker, used as the concrete failing input for the deletion-marker
waiter. -/
def pinnedPV : PersistentVolume :=
  { name := "pv1"
    resourceVersion := "7"
    uid := "uid-1"
    annotations := [(AnnDynamicallyProvisioned, LegacyProvisioner)]
    finalizers := [FinalizerPVProtection]
    deletionTimestamp := none
    claimRefName := "pvc1"
    claimRefNamespace := "ns1"
    phase := .bound
    nfs := some { server := "10.0.0.1", path := "/export", readOnly := true }
    iscsi := none
    csi := none }

/-- Claim C2 (code_bug evaluation): when the deletion-marker waiter
times out, the code returns the pair (nil, timeout error), not the pair
(last-seen resource, error) promised by its own documentation comment.
Here every attempt observes the cached PV without a deletion marker, so
the loop exhausts its deadline; the last-seen resource is pinnedPV, yet
the first component of the result is none. -/
theorem waitForDeletedPV_timeout_returns_nil :
    waitForDeletedPV "pv1" 180 [.pv pinnedPV, .pv pinnedPV] =
      (none, some (.pvNotDeleted "pv1" 180)) ∧
    (waitForDeletedPV "pv1" 180 [.pv pinnedPV, .pv pinnedPV]).1 ≠ some pinnedPV := by
  constructor
  · rfl
  · decide

/-- Claim C3 (counterexample): a cache lookup that returns an object of
the wrong type does not abort the disappearance waiter.  On this input
the first attempt observes the type mismatch and the waiter nevertheless
makes a second attempt, which sees the key absent and succeeds, so the
mismatch error is neither propagated nor final. -/
theorem waitForPVDisappearance_typeMismatch_retried :
    waitForPVDisappearance "pv1" 180 [PVCacheView.nonPVObject, PVCacheView.absent] =
      Except.ok () ∧
    waitForPVDisappearance "pv1" 180 [PVCacheView.nonPVObject, PVCacheView.absent] ≠
      Except.error (PollError.nonPVObject "pv1") := by
  refine ⟨rfl, ?_⟩
  intro h
  rw [show waitForPVDisappearance "pv1" 180 [PVCacheView.nonPVObject, PVCacheView.absent] =
      Except.ok () from rfl] at h
  exact Except.noConfusion h

/-- Claim C3 (amended): in both the disappearance waiter and the
deletion-marker waiter, a type-mismatched cache object is treated as a
retryable failure exactly like any other attempt failure: the waiter
proceeds to the remaining attempts as if the mismatched attempt had
observed a still-present resource, and only a fully elapsed deadline
produces the timeout error. -/
theorem typeMismatch_is_retried (name : String) (secs : Nat) (rest : List PVCacheView) :
    waitForPVDisappearance name secs (PVCacheView.nonPVObject :: rest) =
      waitForPVDisappearance name secs rest ∧
    waitForDeletedPV name secs (PVCacheView.nonPVObject :: rest) =
      waitForDeletedPV name secs rest := by
  constructor
  · rfl
  · rfl

/-- Modelled from the spec: one step of the out-of-scope cluster
machinery between two poll attempts.  A resource whose deletion marker
is set and whose finalizer list is empty is garbage collected and
vanishes from the watch-fed cache; every other state is left alone. -/
def clusterStep : PVCacheView → PVCacheView
  | .pv p =>
    if p.deletionTimestamp.isSome && p.finalizers.isEmpty then .absent else .pv p
  | v => v

/-- Modelled from the spec: the delete-volume-resource gateway call.
Deleting a resource with finalizers sets its deletion marker and leaves
it pinned; deleting one without finalizers removes it; deleting an
absent resource is idempotent. -/
def kubeDeletePV : PVCacheView → PVCacheView
  | .pv p =>
    if p.finalizers.isEmpty then .absent else .pv { p with deletionTimestamp := some 1 }
  | v => v

/-- Modelled from the spec: the patch-volume-resource gateway call used
by removePVFinalizers; the replacement object becomes the stored one
when the resource is present. -/
def patchPVStep (replacement : PersistentVolume) : PVCacheView → PVCacheView
  | .pv _ => .pv replacement
  | v => v

/-- waitForDeletedPV over the deterministic cluster-step model: same
condition as the trace version, with the cluster advancing one step
between attempts and the post-wait cluster state returned. -/
def waitForDeletedPVRun (name : String) (maxElapsedSeconds : Nat) :
    Nat → PVCacheView → (Option PersistentVolume × Option PollError) × PVCacheView
  | 0, s => ((none, some (.pvNotDeleted name maxElapsedSeconds)), s)
  | n + 1, s =>
    match checkForDeletedPV name s with
    | (p, none) => ((p, none), s)
    | (_, some _) => waitForDeletedPVRun name maxElapsedSeconds n (clusterStep s)

/-- waitForPVDisappearance over the deterministic cluster-step model. -/
def waitForPVDisappearanceRun (name : String) (maxElapsedSeconds : Nat) :
    Nat → PVCacheView → Except PollError Unit × PVCacheView
  | 0, s => (.error (.pvNotFullyDeleted name maxElapsedSeconds), s)
  | n + 1, s =>
    match checkForPVGone name s with
    | none => (.ok (), s)
    | some _ => waitForPVDisappearanceRun name maxElapsedSeconds n (clusterStep s)

/-- removePVFinalizers: patch the PV with a clone whose finalizer list
is emptied.  The patch gateway call is modelled as always succeeding,
so only the state change and the recorded action remain. -/
def removePVFinalizers (pv : PersistentVolume) (s : PVCacheView) :
    PVCacheView × List Action :=
  (patchPVStep { pv with finalizers := [] } s, [Action.patchPV pv.name])

/-- First phase of deletePVForUpgrade (everything before the final wait
for full disappearance): issue the delete and run the deletion-marker
waiter when no marker is set yet, stripping finalizers from a non-nil
returned resource; when the marker was already set on entry, strip
finalizers directly if any are present. -/
def deletePVFirstPhase (pv : PersistentVolume) (fuel : Nat) (s0 : PVCacheView) :
    Except PollError Unit × PVCacheView × List Action :=
  match pv.deletionTimestamp with
  | none =>
    let s1 := kubeDeletePV s0
    let acts1 := [Action.deletePV pv.name]
    match waitForDeletedPVRun pv.name PVDeleteWaitSeconds fuel s1 with
    | ((_, some e), s2) => (.error e, s2, acts1)
    | ((some deletedPV, none), s2) =>
      let r := removePVFinalizers deletedPV s2
      (.ok (), r.1, acts1 ++ r.2)
    | ((none, none), s2) => (.ok (), s2, acts1)
  | some _ =>
    if pv.finalizers ≠ [] then
      let r := removePVFinalizers pv s0
      (.ok (), r.1, r.2)
    else
      (.ok (), s0, [])

/-- deletePVForUpgrade over the cluster-step model: run the first phase
above and, unless it failed, finish by waiting for the PV to fully
disappear from the cache.  The fuel argument is the number of attempts
each inner waiter is allowed. -/
def deletePVForUpgrade (pv : PersistentVolume) (fuel : Nat) (s0 : PVCacheView) :
    Except PollError Unit × PVCacheView × List Action :=
  match deletePVFirstPhase pv fuel s0 with
  | (.error e, s, acts) => (.error e, s, acts)
  | (.ok _, s, acts) =>
    match waitForPVDisappearanceRun pv.name PVDeleteWaitSeconds fuel s with
    | (.error e, s2) => (.error e, s2, acts)
    | (.ok _, s2) => (.ok (), s2, acts)

/-- Claim C5: the deletion sub-protocol is idempotent on a resource that
already carries a deletion marker and has no finalizers.  Starting from
a cache still holding such a resource, one invocation (with at least two
poll attempts available, so that garbage collection can act between
attempts) succeeds and leaves the resource absent; a second invocation
from that end state also succeeds and leaves the very same end state,
the resource absent. -/
theorem deletePVForUpgrade_idempotent (pv : PersistentVolume) (t : Nat)
    (fuel1 fuel2 : Nat)
    (hmark : pv.deletionTimestamp = some t)
    (hfin : pv.finalizers = [])
    (hf1 : 2 ≤ fuel1) (hf2 : 1 ≤ fuel2) :
    (deletePVForUpgrade pv fuel1 (PVCacheView.pv pv)).1 = Except.ok () ∧
    (deletePVForUpgrade pv fuel1 (PVCacheView.pv pv)).2.1 = PVCacheView.absent ∧
    (deletePVForUpgrade pv fuel2 ((deletePVForUpgrade pv fuel1 (PVCacheView.pv pv)).2.1)).1 =
      Except.ok () ∧
    (deletePVForUpgrade pv fuel2 ((deletePVForUpgrade pv fuel1 (PVCacheView.pv pv)).2.1)).2.1 =
      (deletePVForUpgrade pv fuel1 (PVCacheView.pv pv)).2.1 := by
  obtain ⟨n, rfl⟩ : ∃ n, fuel1 = n + 2 := ⟨fuel1 - 2, by omega⟩
  obtain ⟨m, rfl⟩ : ∃ m, fuel2 = m + 1 := ⟨fuel2 - 1, by omega⟩
  simp [deletePVForUpgrade, deletePVFirstPhase, hmark, hfin, waitForPVDisappearanceRun,
    checkForPVGone, clusterStep]

/-- A sample PV that already carries a deletion marker and has an empty
finalizer list, the entry state of the idempotence scenario. -/
def markedPV : PersistentVolume :=
  { name := "pv1"
    resourceVersion := "9"
    uid := "uid-2"
    annotations := [(AnnDynamicallyProvisioned, LegacyProvisioner)]
    finalizers := []
    deletionTimestamp := some 5
    claimRefName := "pvc1"
    claimRefNamespace := "ns1"
    phase := .bound
    nfs := some { server := "10.0.0.1", path := "/export", readOnly := true }
    iscsi := none
    csi := none }

/-- Witness for claim C5 at the concrete marker-set, finalizer-free PV
with two attempts for the first invocation and one for the second. -/
theorem deletePVForUpgrade_idempotent_witness :
    (deletePVForUpgrade markedPV 2 (PVCacheView.pv markedPV)).1 = Except.ok () ∧
    (deletePVForUpgrade markedPV 2 (PVCacheView.pv markedPV)).2.1 = PVCacheView.absent ∧
    (deletePVForUpgrade markedPV 1 ((deletePVForUpgrade markedPV 2 (PVCacheView.pv markedPV)).2.1)).1 =
      Except.ok () ∧
    (deletePVForUpgrade markedPV 1 ((deletePVForUpgrade markedPV 2 (PVCacheView.pv markedPV)).2.1)).2.1 =
      (deletePVForUpgrade markedPV 2 (PVCacheView.pv markedPV)).2.1 :=
  deletePVForUpgrade_idempotent markedPV 5 2 1 rfl rfl (by decide) (by decide)

/-- Assignment into a string-keyed association list: replace the first
binding of the key, or append a new binding when absent.  This models
assignment into a Go map. -/
def setKey : List (String × String) → String → String → List (String × String)
  | [], k, v => [(k, v)]
  | (k0, v0) :: rest, k, v =>
    if k0 = k then (k, v) :: rest else (k0, v0) :: setKey rest k v

/-- createCSIPVFromPV: read the read-only flag (and, for iSCSI, the
filesystem type) off whichever legacy source is present, build the four
volume attributes from the registry record, clone the PV with identity
fields cleared, legacy sources removed and the CSI source set, and
rewrite the provenance annotation to the CSI provisioner.  The create
gateway call is modelled by the recorded action. -/
def createCSIPVFromPV (pv : PersistentVolume) (volume : VolumeExternal) :
    PersistentVolume × List Action :=
  let roFs : Bool × String :=
    match pv.nfs with
    | some n => (n.readOnly, "")
    | none =>
      match pv.iscsi with
      | some i => (i.readOnly, i.fsType)
      | none => (false, "")
  let volumeAttributes : List (String × String) :=
    [("backendUUID", volume.backendUUID),
     ("name", volume.config.name),
     ("internalName", volume.config.internalName),
     ("protocol", volume.config.protocol)]
  let csiPV : PersistentVolume :=
    { pv with
      resourceVersion := ""
      uid := ""
      nfs := none
      iscsi := none
      csi := some
        { driver := Provisioner
          volumeHandle := pv.name
          readOnly := roFs.1
          fsType := roFs.2
          volumeAttributes := volumeAttributes } }
  let created :=
    { csiPV with
      annotations := setKey csiPV.annotations AnnDynamicallyProvisioned Provisioner }
  (created, [Action.createPV created])

/-- Claim C4: converting a network-filesystem PV with the read-only flag
set yields a CSI source with read-only true, empty filesystem type,
volume handle equal to the original PV name, and an attribute list of
exactly the four keys backendUUID, name, internalName and protocol,
every value drawn from the registry record.  The statement quantifies
over all NFS sources, so no field of the legacy source other than its
read-only flag can influence the result. -/
theorem createCSIPVFromPV_nfs_readOnly (pv : PersistentVolume) (volume : VolumeExternal)
    (n : NFSVolumeSource) (hnfs : pv.nfs = some n) (hro : n.readOnly = true) :
    (createCSIPVFromPV pv volume).1.csi = some
      { driver := Provisioner
        volumeHandle := pv.name
        readOnly := true
        fsType := ""
        volumeAttributes :=
          [("backendUUID", volume.backendUUID),
           ("name", volume.config.name),
           ("internalName", volume.config.internalName),
           ("protocol", volume.config.protocol)] } := by
  simp [createCSIPVFromPV, hnfs, hro]

/-- A sample registry volume record in the online state. -/
def vol1 : VolumeExternal :=
  { config := { name := "pv1", internalName := "trident_pv1", protocol := "file" }
    backendUUID := "b-123"
    state := .online }

/-- Witness for claim C4 at the concrete NFS PV pinnedPV, whose NFS
source has the read-only flag set, and the concrete record vol1. -/
theorem createCSIPVFromPV_nfs_readOnly_witness :
    (createCSIPVFromPV pinnedPV vol1).1.csi = some
      { driver := Provisioner
        volumeHandle := pinnedPV.name
        readOnly := true
        fsType := ""
        volumeAttributes :=
          [("backendUUID", vol1.backendUUID),
           ("name", vol1.config.name),
           ("internalName", vol1.config.internalName),
           ("protocol", vol1.config.protocol)] } :=
  createCSIPVFromPV_nfs_readOnly pinnedPV vol1
    { server := "10.0.0.1", path := "/export", readOnly := true } rfl rfl

/-- removePVCBindCompletedAnn: clone the claim, rebuild its
annotation list from every binding whose key differs from the
bind-completed key, and submit the clone for patching.  The patch
gateway call is modelled as succeeding with the clone. -/
def removePVCBindCompletedAnn (pvc : PersistentVolumeClaim) :
    PersistentVolumeClaim × List Action :=
  let pvcClone :=
    { pvc with
      annotations := pvc.annotations.filter (fun kv => decide (kv.1 ≠ AnnBindCompleted)) }
  (pvcClone, [Action.patchPVC pvc.ns pvc.name])

theorem lookupKey_filter_ne (l : List (String × String)) (bad k : String) (hk : k ≠ bad) :
    lookupKey (l.filter (fun kv => decide (kv.1 ≠ bad))) k = lookupKey l k := by
  induction l with
  | nil => rfl
  | cons kv rest ih =>
    obtain ⟨k0, v0⟩ := kv
    rw [List.filter_cons]
    by_cases hb : k0 = bad
    · have hp : (decide ((k0, v0).1 ≠ bad)) = false := by simp [hb]
      have hne : ¬k0 = k := by rw [hb]; exact fun h => hk h.symm
      rw [hp]
      simp only [Bool.false_eq_true, if_false]
      rw [lookupKey, if_neg hne]
      exact ih
    · have hp : (decide ((k0, v0).1 ≠ bad)) = true := by simp [hb]
      rw [hp, if_pos rfl, lookupKey, lookupKey]
      by_cases hkk : k0 = k
      · rw [if_pos hkk, if_pos hkk]
      · rw [if_neg hkk, if_neg hkk]
        exact ih

theorem lookupKey_filter_self (l : List (String × String)) (bad : String) :
    lookupKey (l.filter (fun kv => decide (kv.1 ≠ bad))) bad = none := by
  induction l with
  | nil => rfl
  | cons kv rest ih =>
    obtain ⟨k0, v0⟩ := kv
    rw [List.filter_cons]
    by_cases hb : k0 = bad
    · have hp : (decide ((k0, v0).1 ≠ bad)) = false := by simp [hb]
      rw [hp]
      simp only [Bool.false_eq_true, if_false]
      exact ih
    · have hp : (decide ((k0, v0).1 ≠ bad)) = true := by simp [hb]
      rw [hp, if_pos rfl, lookupKey, if_neg hb]
      exact ih

/-- Claim C10: the claim object submitted for patching keeps every
annotation other than the bind-completed one with its original value,
carries no bind-completed annotation, and agrees with the original
claim on every other field. -/
theorem removePVCBindCompletedAnn_frame (pvc : PersistentVolumeClaim)
    (k : String) (hk : k ≠ AnnBindCompleted) :
    lookupKey (removePVCBindCompletedAnn pvc).1.annotations k =
      lookupKey pvc.annotations k ∧
    lookupKey (removePVCBindCompletedAnn pvc).1.annotations AnnBindCompleted = none ∧
    (removePVCBindCompletedAnn pvc).1.name = pvc.name ∧
    (removePVCBindCompletedAnn pvc).1.ns = pvc.ns ∧
    (removePVCBindCompletedAnn pvc).1.phase = pvc.phase ∧
    (removePVCBindCompletedAnn pvc).1.volumeName = pvc.volumeName := by
  refine ⟨?_, ?_, rfl, rfl, rfl, rfl⟩
  · exact lookupKey_filter_ne pvc.annotations AnnBindCompleted k hk
  · exact lookupKey_filter_self pvc.annotations AnnBindCompleted

/-- A sample bound claim carrying the bind-completed annotation and one
other annotation. -/
def pvc1 : PersistentVolumeClaim :=
  { name := "pvc1"
    ns := "ns1"
    annotations := [(AnnBindCompleted, "yes"), ("owner", "team-a")]
    phase := .bound
    volumeName := "pv1" }

/-- Witness for claim C10 at the concrete claim pvc1 and the concrete
key owner. -/
theorem removePVCBindCompletedAnn_frame_witness :
    lookupKey (removePVCBindCompletedAnn pvc1).1.annotations "owner" =
      lookupKey pvc1.annotations "owner" ∧
    lookupKey (removePVCBindCompletedAnn pvc1).1.annotations AnnBindCompleted = none ∧
    (removePVCBindCompletedAnn pvc1).1.name = pvc1.name ∧
    (removePVCBindCompletedAnn pvc1).1.ns = pvc1.ns ∧
    (removePVCBindCompletedAnn pvc1).1.phase = pvc1.phase ∧
    (removePVCBindCompletedAnn pvc1).1.volumeName = pvc1.volumeName :=
  removePVCBindCompletedAnn_frame pvc1 "owner" (by decide)

/-- One attempt of the claim-phase condition inside waitForPVCPhase:
re-fetch the claim from the cache (none models the not-found error of
the cached lookup) and compare its phase with the target. -/
def checkForPVCPhase (ns name : String) (phase : PersistentVolumeClaimPhase) :
    Option PersistentVolumeClaim → Except PollError PersistentVolumeClaim
  | none => .error (.pvcNotFoundInCache ns name)
  | some latest =>
    if latest.phase = phase then .ok latest
    else .error (.pvcNotYetPhase ns name phase)

/-- waitForPVCPhase over an explicit trace of cache observations; every
attempt failure is retried, the freshest claim is returned on success,
and an exhausted trace yields the timeout error naming the claim and
the elapsed seconds. -/
def waitForPVCPhase (pvc : PersistentVolumeClaim) (phase : PersistentVolumeClaimPhase)
    (maxElapsedSeconds : Nat) :
    List (Option PersistentVolumeClaim) → Except PollError PersistentVolumeClaim
  | [] => .error (.pvcPhaseTimeout pvc.ns pvc.name phase maxElapsedSeconds)
  | o :: rest =>
    match checkForPVCPhase pvc.ns pvc.name phase o with
    | .ok latest => .ok latest
    | .error _ => waitForPVCPhase pvc phase maxElapsedSeconds rest

/-- What one live fetch of a workload can return: a not-found response,
another API error, the impossible nil object, or the pod itself. -/
inductive PodGetResult where
  | notFound
  | apiError (msg : String)
  | nilPod
  | pod (p : Pod)
  deriving DecidableEq, Repr

/-- One attempt of the pod condition inside
waitForDeletedOrNonRunningPod: not-found and any phase other than
running are terminal successes; everything else is retried. -/
def checkForDeletedPod (ns name : String) : PodGetResult → Option PollError
  | .notFound => none
  | .apiError m => some (.podAPIError m)
  | .nilPod => some (.nilPodReturned ns name)
  | .pod p =>
    if p.phase = PodPhase.running then some (.podStillRunning ns name) else none

/-- waitForDeletedOrNonRunningPod over an explicit trace of live fetch
results, with the timeout error of the Go caller on exhaustion. -/
def waitForDeletedOrNonRunningPod (name ns : String) (maxElapsedSeconds : Nat) :
    List PodGetResult → Except PollError Unit
  | [] => .error (.podNotDeleted ns name maxElapsedSeconds)
  | r :: rest =>
    match checkForDeletedPod ns name r with
    | none => .ok ()
    | some _ => waitForDeletedOrNonRunningPod name ns maxElapsedSeconds rest

/-- Structured error results of UpgradeVolume, one constructor per
return site of the Go function, carrying the data its message
interpolates. -/
inductive UpgradeError where
  | volumeNotFound (volume : String)
  | volumeNotOnline (volume : String)
  | pvNotFound (pv : String)
  | notNFSOrISCSI (pv : String)
  | pvNotBound (pv : String)
  | notProvisionedByTrident (pv : String)
  | pvcNotFound (name ns : String)
  | podCheckFailed (msg : String)
  | nakedPods (pods : List String)
  | disallowedFinalizer (pv : String)
  | couldNotDeletePV (inner : PollError)
  | pvcDidNotReachLost (inner : PollError)
  | unexpectedPodStatus (pod : String) (inner : PollError)
  | pvcDidNotReachBound (inner : PollError)
  deriving DecidableEq, Repr

/-- The environment of one UpgradeVolume invocation: the registry, the
cached read views consulted during validation, the live pod list, the
cluster state and fuel driving the deletion sub-protocol, and the
observation traces driving the three later waiters. -/
structure Env where
  registry : List (String × VolumeExternal)
  pvCache : List (String × PersistentVolume)
  pvcCache : List ((String × String) × PersistentVolumeClaim)
  podList : Except String (List Pod)
  pvState0 : PVCacheView
  deleteFuel : Nat
  lostTrace : List (Option PersistentVolumeClaim)
  podTraces : List (String × List PodGetResult)
  boundTrace : List (Option PersistentVolumeClaim)

/-- Observation trace of the live pod waiter for a given pod name. -/
def podTraceFor (env : Env) (name : String) : List PodGetResult :=
  (lookupKey env.podTraces name).getD []

/-- Second loop of UpgradeVolume over the owned pods: wait on each pod
in turn, surfacing the first waiter failure. -/
def waitForOwnedPods (env : Env) (ns : String) :
    List String → Except UpgradeError Unit
  | [] => .ok ()
  | podName :: rest =>
    match waitForDeletedOrNonRunningPod podName ns PodDeleteWaitSeconds
        (podTraceFor env podName) with
    | .error e => .error (.unexpectedPodStatus podName e)
    | .ok _ => waitForOwnedPods env ns rest

/-- UpgradeVolume: the full workflow, returning the Go result pair
together with the ordered list of cluster mutations performed.  The
structure follows the source line by line: registry lookup, online
check, cached PV lookup, descriptor check, bound check, provenance
check, cached PVC lookup, pod enumeration with the naked-pod gate,
finalizer gate, deletion sub-protocol, wait for the claim to be lost,
deletion of owned pods, wait for each pod, bind-annotation strip, CSI
PV creation, and the wait for rebinding. -/
def upgradeVolume (env : Env) (request : UpgradeVolumeRequest) :
    Except UpgradeError VolumeExternal × List Action :=
  match lookupKey env.registry request.volume with
  | none => (.error (.volumeNotFound request.volume), [])
  | some volume =>
    if volume.state ≠ VolumeState.online then
      (.error (.volumeNotOnline volume.config.name), [])
    else
      match lookupKey env.pvCache request.volume with
      | none => (.error (.pvNotFound request.volume), [])
      | some pv =>
        if pv.nfs = none ∧ pv.iscsi = none then
          (.error (.notNFSOrISCSI pv.name), [])
        else if pv.phase ≠ PersistentVolumePhase.bound then
          (.error (.pvNotBound pv.name), [])
        else if lookupKey pv.annotations AnnDynamicallyProvisioned ≠ some LegacyProvisioner then
          (.error (.notProvisionedByTrident pv.name), [])
        else
          match lookupKey env.pvcCache (pv.claimRefName, pv.claimRefNamespace) with
          | none => (.error (.pvcNotFound pv.claimRefName pv.claimRefNamespace), [])
          | some pvc =>
            match env.podList with
            | .error e => (.error (.podCheckFailed e), [])
            | .ok pods =>
              if (getPodsForPVC pods pvc.name).2 ≠ [] then
                (.error (.nakedPods (getPodsForPVC pods pvc.name).2), [])
              else if pv.finalizers ≠ [] ∧
                  (pv.finalizers.head? ≠ some FinalizerPVProtection ∨
                    1 < pv.finalizers.length) then
                (.error (.disallowedFinalizer pv.name), [])
              else
                match deletePVForUpgrade pv env.deleteFuel env.pvState0 with
                | (.error e, _, acts) => (.error (.couldNotDeletePV e), acts)
                | (.ok _, _, acts) =>
                  match waitForPVCPhase pvc PersistentVolumeClaimPhase.lost
                      PVDeleteWaitSeconds env.lostTrace with
                  | .error e => (.error (.pvcDidNotReachLost e), acts)
                  | .ok lostPVC =>
                    let acts2 := acts ++ (getPodsForPVC pods pvc.name).1.map
                      (fun p => Action.deletePod pv.claimRefNamespace p)
                    match waitForOwnedPods env pv.claimRefNamespace
                        (getPodsForPVC pods pvc.name).1 with
                    | .error e => (.error e, acts2)
                    | .ok _ =>
                      let unbound := removePVCBindCompletedAnn lostPVC
                      let created := createCSIPVFromPV pv volume
                      match waitForPVCPhase unbound.1 PersistentVolumeClaimPhase.bound
                          PVDeleteWaitSeconds env.boundTrace with
                      | .error e => (.error (.pvcDidNotReachBound e),
                          acts2 ++ unbound.2 ++ created.2)
                      | .ok _ => (.ok volume, acts2 ++ unbound.2 ++ created.2)

/-- Claim C8: whenever UpgradeVolume succeeds, the record it returns is
exactly the record fetched from the registry at workflow entry; no step
of the workflow replaces or alters it. -/
theorem upgradeVolume_ok_returns_registry_record (env : Env) (req : UpgradeVolumeRequest)
    (v : VolumeExternal) (acts : List Action)
    (h : upgradeVolume env req = (.ok v, acts)) :
    lookupKey env.registry req.volume = some v := by
  unfold upgradeVolume at h
  repeat' first
    | split at h
    | simp only [] at h
  all_goals simp only [Prod.mk.injEq] at h
  all_goals obtain ⟨h1, h2⟩ := h
  all_goals first
    | exact Except.noConfusion h1
    | (injection h1 with h1; subst h1; assumption)

/-- The sample upgrade request for the concrete scenarios. -/
def req1 : UpgradeVolumeRequest := { volume := "pv1", migrationType := "csi" }

/-- A sample owned pod (it has a controller owner reference) mounting
the claim through one volume entry. -/
def ownedPod1 : Pod :=
  { name := "pod1"
    ownerReferences := ["deployment-1"]
    phase := .running
    volumes := [{ name := "data", persistentVolumeClaim := some "pvc1" }] }

/-- The sample claim after the legacy PV deletion, in the lost phase. -/
def lostPVC1 : PersistentVolumeClaim := { pvc1 with phase := .lost }

/-- A fully successful environment: the registry holds the online
record, the caches hold the bound PV and claim, one owned pod mounts
the claim, the deletion sub-protocol and all three waiters run to
success. -/
def happyEnv : Env :=
  { registry := [("pv1", vol1)]
    pvCache := [("pv1", pinnedPV)]
    pvcCache := [(("pvc1", "ns1"), pvc1)]
    podList := .ok [ownedPod1]
    pvState0 := .pv pinnedPV
    deleteFuel := 3
    lostTrace := [some lostPVC1]
    podTraces := [("pod1", [.notFound])]
    boundTrace := [none, some pvc1] }

/-- Witness for claim C8: on the concrete happy-path environment the
workflow succeeds, and the theorem recovers that the returned record is
the one stored in the registry under the requested identifier. -/
theorem upgradeVolume_ok_returns_registry_record_witness :
    lookupKey happyEnv.registry req1.volume = some vol1 :=
  upgradeVolume_ok_returns_registry_record happyEnv req1 vol1
    (upgradeVolume happyEnv req1).2 rfl

/-- A PV carrying both legacy descriptor variants at once. -/
def bothPV : PersistentVolume :=
  { pinnedPV with iscsi := some { readOnly := false, fsType := "ext4" } }

/-- The happy-path environment with the double-descriptor PV in the
cache and as the live cluster state. -/
def bothEnv : Env :=
  { happyEnv with pvCache := [("pv1", bothPV)], pvState0 := .pv bothPV }

/-- Claim C1 (counterexample): a PV carrying both legacy descriptor
variants simultaneously is not rejected.  On this environment the
descriptor gate passes (the PV is simply treated as NFS), the whole
workflow runs to successful completion, and cluster mutations are
performed, contradicting the claim that such a PV draws a validation
error before any mutation. -/
theorem upgradeVolume_acceptsBothDescriptors :
    bothPV.nfs ≠ none ∧ bothPV.iscsi ≠ none ∧
    (upgradeVolume bothEnv req1).1 = Except.ok vol1 ∧
    (upgradeVolume bothEnv req1).2 ≠ [] :=
  ⟨by decide, by decide, rfl, by decide⟩

/-- Claim C1 (amended): a PV lacking both legacy descriptor variants is
rejected with an error before any cluster mutation.  The half of the
original claim about a PV carrying both variants is dropped: the code
accepts such a PV and proceeds, as the counterexample shows. -/
theorem upgradeVolume_rejects_missing_descriptor (env : Env) (req : UpgradeVolumeRequest)
    (pv : PersistentVolume)
    (hpv : lookupKey env.pvCache req.volume = some pv)
    (hnfs : pv.nfs = none) (hiscsi : pv.iscsi = none) :
    (∃ e, (upgradeVolume env req).1 = Except.error e) ∧ (upgradeVolume env req).2 = [] := by
  unfold upgradeVolume
  cases hreg : lookupKey env.registry req.volume with
  | none => exact ⟨⟨_, rfl⟩, rfl⟩
  | some volume =>
    by_cases hs : volume.state ≠ VolumeState.online
    · constructor
      · exact ⟨UpgradeError.volumeNotOnline volume.config.name, by simp [hs]⟩
      · simp [hs]
    · constructor
      · exact ⟨UpgradeError.notNFSOrISCSI pv.name, by simp [hs, hpv, hnfs, hiscsi]⟩
      · simp [hs, hpv, hnfs, hiscsi]

/-- A PV lacking both legacy descriptor variants. -/
def noSrcPV : PersistentVolume := { pinnedPV with nfs := none }

/-- The happy-path environment with the descriptor-free PV in the
cache. -/
def noSrcEnv : Env := { happyEnv with pvCache := [("pv1", noSrcPV)] }

/-- Witness for the amended claim C1 at the concrete descriptor-free
PV. -/
theorem upgradeVolume_rejects_missing_descriptor_witness :
    (∃ e, (upgradeVolume noSrcEnv req1).1 = Except.error e) ∧
    (upgradeVolume noSrcEnv req1).2 = [] :=
  upgradeVolume_rejects_missing_descriptor noSrcEnv req1 noSrcPV rfl rfl rfl

theorem waitForPVCPhase_timeout (pvc : PersistentVolumeClaim)
    (phase : PersistentVolumeClaimPhase) (secs : Nat)
    (trace : List (Option PersistentVolumeClaim))
    (h : ∀ o ∈ trace, ∀ p, o = some p → p.phase ≠ phase) :
    waitForPVCPhase pvc phase secs trace =
      .error (.pvcPhaseTimeout pvc.ns pvc.name phase secs) := by
  induction trace with
  | nil => rfl
  | cons o rest ih =>
    have hrest : ∀ o' ∈ rest, ∀ p, o' = some p → p.phase ≠ phase :=
      fun o' ho' => h o' (List.mem_cons_of_mem _ ho')
    cases o with
    | none =>
      rw [waitForPVCPhase]
      exact ih hrest
    | some p =>
      have hp : ¬p.phase = phase := h (some p) (List.mem_cons_self _ _) p rfl
      rw [waitForPVCPhase]
      simp only [checkForPVCPhase, if_neg hp]
      exact ih hrest

/-- Recognizer for workload deletions among the recorded actions. -/
def isPodDeletion : Action → Bool
  | .deletePod _ _ => true
  | _ => false

theorem deletePVFirstPhase_acts_shape (pv : PersistentVolume) (fuel : Nat)
    (s : PVCacheView) :
    ∀ a ∈ (deletePVFirstPhase pv fuel s).2.2,
      (∃ nm, a = Action.deletePV nm) ∨ (∃ nm, a = Action.patchPV nm) := by
  intro a ha
  unfold deletePVFirstPhase removePVFinalizers at ha
  repeat' first
    | split at ha
    | simp only [] at ha
  all_goals simp only [List.mem_append, List.mem_cons, List.mem_singleton,
    List.not_mem_nil, or_false, false_or] at ha
  all_goals first
    | exact ha.elim
    | exact Or.inl ⟨_, ha⟩
    | exact Or.inr ⟨_, ha⟩
    | (rcases ha with ha | ha
       · exact Or.inl ⟨_, ha⟩
       · exact Or.inr ⟨_, ha⟩)

theorem deletePVForUpgrade_acts_shape (pv : PersistentVolume) (fuel : Nat)
    (s : PVCacheView) :
    ∀ a ∈ (deletePVForUpgrade pv fuel s).2.2,
      (∃ nm, a = Action.deletePV nm) ∨ (∃ nm, a = Action.patchPV nm) := by
  intro a ha
  unfold deletePVForUpgrade at ha
  rcases hfp : deletePVFirstPhase pv fuel s with ⟨r, s1, acts1⟩
  rw [hfp] at ha
  have hsub : ∀ a ∈ acts1, (∃ nm, a = Action.deletePV nm) ∨ (∃ nm, a = Action.patchPV nm) := by
    intro a' ha'
    exact deletePVFirstPhase_acts_shape pv fuel s a' (by rw [hfp]; exact ha')
  cases r with
  | error e =>
    simp only [] at ha
    exact hsub a ha
  | ok u =>
    simp only [] at ha
    rcases hw : waitForPVDisappearanceRun pv.name PVDeleteWaitSeconds fuel s1 with ⟨r2, s2⟩
    rw [hw] at ha
    cases r2 <;> simp only [] at ha <;> exact hsub a ha

theorem deletePVForUpgrade_no_podDeletion (pv : PersistentVolume) (fuel : Nat)
    (s : PVCacheView) :
    ((deletePVForUpgrade pv fuel s).2.2.all (fun a => !isPodDeletion a)) = true := by
  rw [List.all_eq_true]
  intro a ha
  rcases deletePVForUpgrade_acts_shape pv fuel s a ha with ⟨nm, rfl⟩ | ⟨nm, rfl⟩ <;> rfl

/-- Claim C6: when every poll of the claim after the legacy PV deletion
observes a phase other than lost (or a cache miss) until the deadline
elapses, the workflow stops with the wrapped timeout error naming the
claim namespace, claim name and elapsed seconds, and the recorded
mutations contain no workload deletion. -/
theorem upgradeVolume_lostTimeout (env : Env) (req : UpgradeVolumeRequest)
    (volume : VolumeExternal) (pv : PersistentVolume) (pvc : PersistentVolumeClaim)
    (pods : List Pod)
    (hreg : lookupKey env.registry req.volume = some volume)
    (hon : volume.state = VolumeState.online)
    (hpv : lookupKey env.pvCache req.volume = some pv)
    (hsrc : ¬(pv.nfs = none ∧ pv.iscsi = none))
    (hph : pv.phase = PersistentVolumePhase.bound)
    (hann : lookupKey pv.annotations AnnDynamicallyProvisioned = some LegacyProvisioner)
    (hpvc : lookupKey env.pvcCache (pv.claimRefName, pv.claimRefNamespace) = some pvc)
    (hpods : env.podList = Except.ok pods)
    (hnaked : (getPodsForPVC pods pvc.name).2 = [])
    (hfin : ¬(pv.finalizers ≠ [] ∧ (pv.finalizers.head? ≠ some FinalizerPVProtection ∨
        1 < pv.finalizers.length)))
    (hdel : (deletePVForUpgrade pv env.deleteFuel env.pvState0).1 = Except.ok ())
    (hlost : ∀ o ∈ env.lostTrace, ∀ p, o = some p →
        p.phase ≠ PersistentVolumeClaimPhase.lost) :
    (upgradeVolume env req).1 = Except.error (.pvcDidNotReachLost
      (.pvcPhaseTimeout pvc.ns pvc.name PersistentVolumeClaimPhase.lost
        PVDeleteWaitSeconds)) ∧
    ((upgradeVolume env req).2.all (fun a => !isPodDeletion a)) = true := by
  have hwait := waitForPVCPhase_timeout pvc PersistentVolumeClaimPhase.lost
    PVDeleteWaitSeconds env.lostTrace hlost
  have hacts := deletePVForUpgrade_no_podDeletion pv env.deleteFuel env.pvState0
  rcases hdp : deletePVForUpgrade pv env.deleteFuel env.pvState0 with ⟨r, s2, dacts⟩
  rw [hdp] at hdel hacts
  subst hdel
  constructor
  · simp [upgradeVolume, hreg, hon, hpv, hsrc, hph, hann, hpvc, hpods, hnaked, hfin,
      hdp, hwait]
  · simp only [upgradeVolume, hreg, hon, hpv, hsrc, hph, hann, hpvc, hpods, hnaked,
      hfin, hdp, hwait]
    simpa using hacts

/-- The happy-path environment whose lost-phase trace never observes
the lost phase before the deadline elapses. -/
def env6 : Env := { happyEnv with lostTrace := [some pvc1, some pvc1] }

/-- Witness for claim C6 at the concrete environment env6, where the
claim stays bound on every poll. -/
theorem upgradeVolume_lostTimeout_witness :
    (upgradeVolume env6 req1).1 = Except.error (.pvcDidNotReachLost
      (.pvcPhaseTimeout pvc1.ns pvc1.name PersistentVolumeClaimPhase.lost
        PVDeleteWaitSeconds)) ∧
    ((upgradeVolume env6 req1).2.all (fun a => !isPodDeletion a)) = true :=
  upgradeVolume_lostTimeout env6 req1 vol1 pinnedPV pvc1 [ownedPod1]
    rfl rfl rfl (by decide) rfl rfl rfl rfl rfl (by decide) rfl (by decide)

/-- Claim C7: when one or more naked pods reference the claim, the
workflow stops with the naked-pod error carrying the full naked list,
performs no mutation, and that list contains the name of every naked
pod referencing the claim through at least one volume entry. -/
theorem upgradeVolume_nakedPods (env : Env) (req : UpgradeVolumeRequest)
    (volume : VolumeExternal) (pv : PersistentVolume) (pvc : PersistentVolumeClaim)
    (pods : List Pod)
    (hreg : lookupKey env.registry req.volume = some volume)
    (hon : volume.state = VolumeState.online)
    (hpv : lookupKey env.pvCache req.volume = some pv)
    (hsrc : ¬(pv.nfs = none ∧ pv.iscsi = none))
    (hph : pv.phase = PersistentVolumePhase.bound)
    (hann : lookupKey pv.annotations AnnDynamicallyProvisioned = some LegacyProvisioner)
    (hpvc : lookupKey env.pvcCache (pv.claimRefName, pv.claimRefNamespace) = some pvc)
    (hpods : env.podList = Except.ok pods)
    (hnaked : (getPodsForPVC pods pvc.name).2 ≠ []) :
    upgradeVolume env req =
      (Except.error (.nakedPods ((getPodsForPVC pods pvc.name).2)), []) ∧
    ∀ pod ∈ pods, pod.ownerReferences = [] →
      ∀ v ∈ pod.volumes, v.persistentVolumeClaim = some pvc.name →
        pod.name ∈ (getPodsForPVC pods pvc.name).2 := by
  constructor
  · simp [upgradeVolume, hreg, hon, hpv, hsrc, hph, hann, hpvc, hpods, hnaked]
  · intro pod hmem hown v hv hvc
    rw [getPodsForPVC_eq]
    simp only []
    rw [List.mem_flatMap]
    refine ⟨pod, hmem, ?_⟩
    simp only [nakedContrib, if_pos hown]
    rw [List.mem_replicate]
    refine ⟨?_, rfl⟩
    have hvf : v ∈ pod.volumes.filter
        (fun u => decide (u.persistentVolumeClaim = some pvc.name)) :=
      List.mem_filter.mpr ⟨hv, by simp [hvc]⟩
    intro h0
    simp only [matchCount] at h0
    rw [List.length_eq_zero] at h0
    rw [h0] at hvf
    exact List.not_mem_nil _ hvf

/-- A sample naked pod (no owner references) mounting the claim through
one volume entry. -/
def nakedPod1 : Pod :=
  { name := "pod2"
    ownerReferences := []
    phase := .running
    volumes := [{ name := "data", persistentVolumeClaim := some "pvc1" }] }

/-- The happy-path environment with a naked pod besides the owned one. -/
def env7 : Env := { happyEnv with podList := .ok [ownedPod1, nakedPod1] }

/-- Witness for claim C7 at the concrete environment env7 and the
concrete naked pod. -/
theorem upgradeVolume_nakedPods_witness :
    upgradeVolume env7 req1 =
      (Except.error (.nakedPods ((getPodsForPVC [ownedPod1, nakedPod1] pvc1.name).2)), []) ∧
    nakedPod1.name ∈ (getPodsForPVC [ownedPod1, nakedPod1] pvc1.name).2 :=
  ⟨(upgradeVolume_nakedPods env7 req1 vol1 pinnedPV pvc1 [ownedPod1, nakedPod1]
      rfl rfl rfl (by decide) rfl rfl rfl rfl (by decide)).1,
   (upgradeVolume_nakedPods env7 req1 vol1 pinnedPV pvc1 [ownedPod1, nakedPod1]
      rfl rfl rfl (by decide) rfl rfl rfl rfl (by decide)).2
     nakedPod1 (by decide) rfl
     { name := "data", persistentVolumeClaim := some "pvc1" } (by decide) rfl⟩

/-- Claim C9: the two lists produced by getPodsForPVC partition the
per-volume-entry occurrences by ownership; each pod appears once per
volume entry of its spec referencing the claim by name, in the naked
list when it has no owner references and in the owned list otherwise. -/
theorem getPodsForPVC_partition (pods : List Pod) (pvcName : String) :
    (getPodsForPVC pods pvcName).1 = pods.flatMap (fun pod =>
      if pod.ownerReferences = [] then []
      else List.replicate (matchCount pod pvcName) pod.name) ∧
    (getPodsForPVC pods pvcName).2 = pods.flatMap (fun pod =>
      if pod.ownerReferences = [] then List.replicate (matchCount pod pvcName) pod.name
      else []) := by
  rw [getPodsForPVC_eq]
  exact ⟨rfl, rfl⟩

end UpgradePV
